import Mathlib

set_option autoImplicit false
set_option linter.unusedVariables false

namespace ThoughtKB

/-! Shallow embedding of the thought knowledge-base subsystem of the repository:
the Neo4j thought-graph toolkit (neo_4j_tool.py), the LightRAG knowledge-graph
toolkit (lightrag_tool.py) and the Pinecone vector toolkit (pinecone_tool.py).
Strings returned by the Python methods are reproduced structurally; the external
backends (the Neo4j server executing the Cypher queries written in the source,
the LightRAG library, the Pinecone index) are modelled by their documented
semantics, noted at each definition. -/

/-! Metadata maps: the Python tools serialize caller-supplied metadata
dictionaries with json.dumps on write and json.loads on read.  We model the
metadata dictionaries as flat string-to-string association lists and give an
executable codec for the JSON object syntax produced by the serializer
(escaping restricted to the quote and backslash characters; compact
separators). -/

abbrev Md := List (String × String)

def lbrace : Char := Char.ofNat 123

def rbrace : Char := Char.ofNat 125

def escChar (c : Char) : List Char :=
  if c = '"' ∨ c = '\\' then ['\\', c] else [c]

def escList : List Char → List Char
  | [] => []
  | c :: cs => escChar c ++ escList cs

def encStr (s : String) : List Char :=
  '"' :: (escList s.toList ++ ['"'])

def encPair (kv : String × String) : List Char :=
  encStr kv.1 ++ ':' :: encStr kv.2

def encFields : Md → List Char
  | [] => []
  | [kv] => encPair kv
  | kv :: rest => encPair kv ++ ',' :: encFields rest

/-- Model of json.dumps restricted to flat string maps. -/
def jsonDumps (m : Md) : String :=
  String.mk (lbrace :: (encFields m ++ [rbrace]))

def parseStrBody : List Char → Option (List Char × List Char)
  | [] => none
  | ['\\'] => none
  | '\\' :: d :: rest2 => (parseStrBody rest2).map fun p => (d :: p.1, p.2)
  | c :: rest =>
    if c = '"' then some ([], rest)
    else (parseStrBody rest).map fun p => (c :: p.1, p.2)

def parseStr : List Char → Option (String × List Char)
  | [] => none
  | c :: r =>
    if c = '"' then
      match parseStrBody r with
      | some (s, rest) => some (String.mk s, rest)
      | none => none
    else none

def parsePair (l : List Char) : Option ((String × String) × List Char) :=
  match parseStr l with
  | none => none
  | some (k, r1) =>
    match r1 with
    | ':' :: r2 =>
      match parseStr r2 with
      | none => none
      | some (v, r3) => some ((k, v), r3)
    | _ => none

def parseFields : Nat → List Char → Option (Md × List Char)
  | 0, _ => none
  | n + 1, l =>
    match parsePair l with
    | none => none
    | some (kv, r) =>
      match r with
      | [] => none
      | c :: r2 =>
        if c = rbrace then some ([kv], r2)
        else if c = ',' then
          match parseFields n r2 with
          | some (m, r3) => some (kv :: m, r3)
          | none => none
        else none

/-- Model of json.loads restricted to the flat string-map objects written by
`jsonDumps`; any other input is rejected (`none`), modelling a
json.JSONDecodeError. -/
def jsonLoads (s : String) : Option Md :=
  match s.toList with
  | [] => none
  | c :: r =>
    if c = lbrace then
      if r = [rbrace] then some []
      else
        match parseFields r.length r with
        | some (m, r2) => if r2 = [] then some m else none
        | none => none
    else none

theorem parseStrBody_quote (rest : List Char) :
    parseStrBody ('"' :: rest) = some ([], rest) := by
  simp [parseStrBody]

theorem parseStrBody_esc (d : Char) (l : List Char) :
    parseStrBody ('\\' :: d :: l) = (parseStrBody l).map fun p => (d :: p.1, p.2) := by
  simp [parseStrBody]

theorem parseStrBody_other (c : Char) (l : List Char) (h1 : c ≠ '"') (h2 : c ≠ '\\') :
    parseStrBody (c :: l) = (parseStrBody l).map fun p => (c :: p.1, p.2) := by
  rcases l with _ | ⟨d, l2⟩
  · simp [parseStrBody, h1, h2]
  · simp [parseStrBody, h1, h2]

theorem parseStrBody_escList (s : List Char) :
    ∀ rest, parseStrBody (escList s ++ '"' :: rest) = some (s, rest) := by
  induction s with
  | nil => intro rest; simpa [escList] using parseStrBody_quote rest
  | cons c cs ih =>
    intro rest
    by_cases hc : c = '"' ∨ c = '\\'
    · simp only [escList, escChar, if_pos hc, List.cons_append, List.nil_append]
      rw [parseStrBody_esc, ih rest]
      rfl
    · push_neg at hc
      have hor : ¬ (c = '"' ∨ c = '\\') := by tauto
      simp only [escList, escChar, if_neg hor, List.cons_append, List.nil_append]
      rw [parseStrBody_other c _ hc.1 hc.2, ih rest]
      rfl

theorem stringMk_toList (s : String) : String.mk s.toList = s := rfl

theorem toList_stringMk (l : List Char) : (String.mk l).toList = l := rfl

theorem parseStr_encStr (k : String) (rest : List Char) :
    parseStr (encStr k ++ rest) = some (k, rest) := by
  simp only [encStr, List.cons_append, List.append_assoc, List.singleton_append]
  simp [parseStr, parseStrBody_escList, stringMk_toList]

theorem parsePair_encPair (kv : String × String) (rest : List Char) :
    parsePair (encPair kv ++ rest) = some (kv, rest) := by
  simp only [encPair, List.append_assoc, List.cons_append]
  simp [parsePair, parseStr_encStr]

theorem encPair_length_pos (kv : String × String) : 1 ≤ (encPair kv).length := by
  simp [encPair, encStr]

theorem length_le_encFields (m : Md) : m.length ≤ (encFields m).length := by
  induction m with
  | nil => simp [encFields]
  | cons kv rest ih =>
    cases rest with
    | nil => simpa [encFields] using encPair_length_pos kv
    | cons kv2 rest2 =>
      simp only [encFields, List.length_append, List.length_cons]
      simp only [List.length_cons] at ih
      have h1 := encPair_length_pos kv
      omega

theorem parseFields_encFields (m : Md) :
    ∀ (fuel : Nat), m ≠ [] → m.length ≤ fuel →
      ∀ rest, parseFields fuel (encFields m ++ rbrace :: rest) = some (m, rest) := by
  induction m with
  | nil => intro fuel h; exact absurd rfl h
  | cons kv tail ih =>
    intro fuel _ hfuel rest
    match fuel, hfuel with
    | n + 1, hfuel =>
      cases tail with
      | nil =>
        show parseFields (n + 1) (encPair kv ++ rbrace :: rest) = some ([kv], rest)
        simp [parseFields, parsePair_encPair]
      | cons kv2 tail2 =>
        have htail : kv2 :: tail2 ≠ [] := by simp
        have hlen : (kv2 :: tail2).length ≤ n := by
          simp only [List.length_cons] at hfuel ⊢
          omega
        have hcr : ¬ ((',' : Char) = rbrace) := by decide
        show parseFields (n + 1)
          ((encPair kv ++ ',' :: encFields (kv2 :: tail2)) ++ rbrace :: rest) =
          some (kv :: kv2 :: tail2, rest)
        rw [List.append_assoc, List.cons_append]
        simp [parseFields, parsePair_encPair, hcr, ih n htail hlen rest]

theorem jsonLoads_jsonDumps (m : Md) : jsonLoads (jsonDumps m) = some m := by
  cases m with
  | nil => simp [jsonDumps, jsonLoads, encFields, toList_stringMk]
  | cons kv tail =>
    have hne : kv :: tail ≠ [] := by simp
    have henc := length_le_encFields (kv :: tail)
    simp only [List.length_cons] at henc
    have hlen : (kv :: tail).length ≤ (encFields (kv :: tail) ++ [rbrace]).length := by
      simp only [List.length_append, List.length_cons, List.length_nil]
      omega
    have hnot : ¬ (encFields (kv :: tail) ++ [rbrace] = [rbrace]) := by
      intro h
      have h2 : (encFields (kv :: tail) ++ [rbrace]).length = 1 := by rw [h]; rfl
      simp only [List.length_append, List.length_cons, List.length_nil] at h2
      omega
    have hmain := parseFields_encFields (kv :: tail)
      (encFields (kv :: tail) ++ [rbrace]).length hne hlen []
    simp only [List.length_append, List.length_cons, List.length_nil] at hmain
    simp only [jsonDumps, jsonLoads, toList_stringMk]
    simp [hnot, hmain]

/-! Embedding of Neo4jThoughtTools (neo_4j_tool.py).  The store state carries
the connection flag, the Thought nodes in insertion order, the relationships,
a logical clock standing in for datetime(), and a supply counter standing in
for uuid.uuid4().  The Cypher queries written in the source are given their
standard semantics: CREATE against the unique constraint on Thought.id set up
by initialize_connection, MATCH plus MERGE for relationships, CONTAINS and
LIMIT for search.  Each method returns its Python string result (error strings
reproduced structurally, with the quoting of interpolated values dropped). -/

namespace Neo4jThoughtTools

structure Thought where
  id : String
  content : String
  timestamp : Nat
  metadata_json : String
deriving DecidableEq

structure Edge where
  source_id : String
  target_id : String
  relationship_type : String
  weight : Rat
  properties : Md
deriving DecidableEq

structure N4State where
  is_initialized : Bool
  thoughts : List Thought
  edges : List Edge
  clock : Nat
  uuidCounter : Nat
deriving DecidableEq

def thoughtIds (s : N4State) : List String := s.thoughts.map Thought.id

/-- Fresh-value supply modelling uuid.uuid4(): successive draws are distinct. -/
def uuidString (n : Nat) : String := "uuid-" ++ toString n

def notInitializedText : String :=
  "Neo4j connection not initialized. Call initialize_connection first."

def constraintViolationText : String :=
  "node with this id already exists (unique constraint thought_id_unique)"

def addThoughtError (e : String) : String := "Error: Failed to add thought: " ++ e

def connectError (e : String) : String := "Error: Failed to connect thoughts: " ++ e

def getThoughtError (e : String) : String := "Error: Failed to get thought: " ++ e

def searchError (e : String) : String := "Error: Failed to search thoughts: " ++ e

/-- Embeds initialize_connection: builds the driver, verifies connectivity and
runs CREATE CONSTRAINT thought_id_unique IF NOT EXISTS; the schema setup is
idempotent and the data is untouched.  The successful handshake is modelled;
the except-branch for an unreachable server is outside the model. -/
def initialize_connection (s : N4State) : String × N4State :=
  ("Neo4j connection initialized successfully", { s with is_initialized := true })

/-- Embeds add_thought.  After the _ensure_initialized check, a falsy
thought_id (the empty string; the declared default is the literal "Thought")
is replaced by a fresh uuid; the metadata dictionary is serialized with
json.dumps; the Cypher CREATE writes the node with a creation timestamp, or
raises a constraint violation, caught into an Error string, when the id is
already present. -/
def add_thought (s : N4State) (content : String) (thought_id : String := "Thought")
    (metadata : Md := []) : String × N4State :=
  if s.is_initialized = false then
    (addThoughtError notInitializedText, s)
  else
    let tid := if thought_id = "" then uuidString s.uuidCounter else thought_id
    let s1 := if thought_id = "" then { s with uuidCounter := s.uuidCounter + 1 } else s
    if tid ∈ thoughtIds s1 then
      (addThoughtError constraintViolationText, s1)
    else
      (tid,
        { s1 with
          thoughts := s1.thoughts ++
            [{ id := tid, content := content, timestamp := s1.clock,
               metadata_json := jsonDumps metadata }],
          clock := s1.clock + 1 })

def connectSuccess (relationship_type : String) (weight : Rat) : String :=
  "Thoughts connected successfully with relationship type " ++ relationship_type ++
    " and weight " ++ toString weight

def connectNotFound : String :=
  "Error: Failed to connect thoughts - one or both thoughts not found"

/-- Embeds connect_thoughts.  The query MATCHes both endpoints and MERGEs the
relationship carrying the weight parameter plus the extra properties (the
properties dictionary minus its weight key, as in the query-building loop).
If either MATCH finds no node the query returns no row, result.single() is
None and nothing is written; when the identical edge exists MERGE matches it
instead of duplicating.  No validation or clamping is applied to weight. -/
def connect_thoughts (s : N4State) (source_id target_id : String)
    (relationship_type : String := "RELATED_TO") (weight : Rat := 1 / 2)
    (properties : Md := []) : String × N4State :=
  if s.is_initialized = false then
    (connectError notInitializedText, s)
  else if source_id ∈ thoughtIds s ∧ target_id ∈ thoughtIds s then
    let e : Edge :=
      { source_id := source_id, target_id := target_id,
        relationship_type := relationship_type, weight := weight,
        properties := properties.filter fun kv => kv.1 != "weight" }
    (connectSuccess relationship_type weight,
      if e ∈ s.edges then s else { s with edges := s.edges ++ [e] })
  else
    (connectNotFound, s)

structure ThoughtRecord where
  id : String
  content : String
  timestamp : Nat
  metadata : Md
  metadata_json : Option String
deriving DecidableEq

/-- The read-side record shaping shared by get_thought and search_thoughts:
metadata_json is parsed with json.loads and the raw key deleted on success;
on a parse failure metadata falls back to the empty map and, exactly as in the
source where the del statement sits before the except clause, the raw text
stays in the record. -/
def parseRecord (t : Thought) : ThoughtRecord :=
  match jsonLoads t.metadata_json with
  | some m =>
    { id := t.id, content := t.content, timestamp := t.timestamp,
      metadata := m, metadata_json := none }
  | none =>
    { id := t.id, content := t.content, timestamp := t.timestamp,
      metadata := [], metadata_json := some t.metadata_json }

/-- Embeds get_thought: MATCH by id, record shaping on success, a not-found
Error string otherwise. -/
def get_thought (s : N4State) (thought_id : String) : Except String ThoughtRecord :=
  if s.is_initialized = false then
    Except.error (getThoughtError notInitializedText)
  else
    match s.thoughts.find? (fun t => t.id == thought_id) with
    | some t => Except.ok (parseRecord t)
    | none => Except.error ("Error: Thought with ID " ++ thought_id ++ " not found")

def isPrefixList : List Char → List Char → Bool
  | [], _ => true
  | _ :: _, [] => false
  | a :: as, b :: bs => a == b && isPrefixList as bs

def isInfixList (needle : List Char) : List Char → Bool
  | [] => needle.isEmpty
  | b :: bs => isPrefixList needle (b :: bs) || isInfixList needle bs

/-- The Cypher CONTAINS operator: needle occurs as a substring of hay. -/
def strContains (hay needle : String) : Bool := isInfixList needle.toList hay.toList

/-- Embeds search_thoughts.  The query filters Thought nodes on
t.content CONTAINS query_text and truncates at LIMIT; it carries no ORDER BY
clause, so the rows come back in the store scan order, modelled here as
insertion order. -/
def search_thoughts (s : N4State) (query_text : String) (limit : Nat := 10) :
    Except String (List ThoughtRecord) :=
  if s.is_initialized = false then
    Except.error (searchError notInitializedText)
  else
    Except.ok
      (((s.thoughts.filter fun t => strContains t.content query_text).take limit).map
        parseRecord)

end Neo4jThoughtTools

/-! Embedding of LightRAGTool (lightrag_tool.py).  The wrapper code under src
is embedded directly; the calls it makes into the external LightRAG library
(acreate_entity, acreate_relation, amerge_entities, ainsert, aquery) are
modelled from the spec, as flagged on each definition.  The _ensure_rag_ready
guard raises a RuntimeError that propagates to the caller, embedded as the
Except.error branch; every string the wrapper itself returns, error strings
included, sits inside Except.ok. -/

namespace LightRAGTool

structure KGEntity where
  name : String
  description : String
  entity_type : String
  source_id : String
deriving DecidableEq

structure KGRelation where
  src : String
  tgt : String
  description : String
  keywords : String
  weight : Rat
  source_id : String
deriving DecidableEq

structure LRState where
  instanceOk : Bool
  is_initialized : Bool
  docs : List (String × String)
  entities : List KGEntity
  relations : List KGRelation
deriving DecidableEq

/-- The condition tested by _ensure_rag_ready: the rag_instance exists and
initialize() has completed. -/
def ready (s : LRState) : Bool := s.instanceOk && s.is_initialized

def notReadyText : String :=
  "LightRAG instance is not available or not initialized. Call await tool.initialize() first."

def entityNames (s : LRState) : List String := s.entities.map KGEntity.name

/-- Embeds the async initialize method: an already-initialized tool reports so
and changes nothing; a missing rag_instance is an error; otherwise the
storages are initialized (modelled as succeeding) and the flag is set. -/
def initializeTool (s : LRState) : String × LRState :=
  if s.is_initialized then ("LightRAGTool is already initialized.", s)
  else if s.instanceOk = false then
    ("Error: Cannot initialize, LightRAG instance was not created during instantiation.", s)
  else ("Initialization successful.", { s with is_initialized := true })

/-- Embeds finalize: flushes the storages (modelled as succeeding) and clears
the initialized flag, after which _ensure_rag_ready raises again. -/
def finalize (s : LRState) : String × LRState :=
  if s.is_initialized = false then
    ("LightRAGTool was not initialized, skipping finalization.", s)
  else if s.instanceOk = false then
    ("Error: Cannot finalize, LightRAG instance is missing.", s)
  else ("Finalization successful.", { s with is_initialized := false })

/-- The Python idiom value or default for optional strings: None and the empty
string both fall back. -/
def orElseStr (v : Option String) (dflt : String) : String :=
  match v with
  | none => dflt
  | some t => if t = "" then dflt else t

/-- Modelled from the spec: the graph-store create_node contract behind
LightRAG acreate_entity - creation fails with an AlreadyExists condition
(a ValueError) when the name is taken, otherwise the node is inserted. -/
def acreate_entity (s : LRState) (entity_name description entity_type source_id : String) :
    Except String LRState :=
  if entity_name ∈ entityNames s then
    Except.error ("Entity " ++ entity_name ++ " already exists")
  else
    Except.ok
      { s with entities := s.entities ++
          [{ name := entity_name, description := description,
             entity_type := entity_type, source_id := source_id }] }

/-- Embeds create_entity: readiness guard, empty-name guard, entity data
defaulting (description or empty, entity_type or UNKNOWN), then the library
call with ValueError caught into an Error string. -/
def create_entity (s : LRState) (entity_name : String)
    (description : Option String := none) (entity_type : Option String := none)
    (source_id : String := "manual") : Except String (String × LRState) :=
  if ready s = false then Except.error notReadyText
  else Except.ok (
    if entity_name = "" then
      ("Error: Invalid input. entity_name must be a non-empty string.", s)
    else
      match acreate_entity s entity_name (description.getD "")
          (orElseStr entity_type "UNKNOWN") source_id with
      | Except.ok s1 => ("Entity " ++ entity_name ++ " created successfully.", s1)
      | Except.error ve => ("Error: " ++ ve, s))

/-- Modelled from the spec: the graph-store create_edge contract behind
LightRAG acreate_relation - a ValueError naming the missing endpoint when
either endpoint is absent; on success the (source, target) edge is
idempotently merged (an identical pair is updated, not duplicated). -/
def acreate_relation (s : LRState) (src tgt description keywords : String)
    (weight : Rat) (source_id : String) : Except String LRState :=
  if src ∉ entityNames s then
    Except.error ("Entity " ++ src ++ " does not exist")
  else if tgt ∉ entityNames s then
    Except.error ("Entity " ++ tgt ++ " does not exist")
  else
    Except.ok
      { s with relations :=
          (s.relations.filter fun q => !(q.src == src && q.tgt == tgt)) ++
            [{ src := src, tgt := tgt, description := description,
               keywords := keywords, weight := weight, source_id := source_id }] }

/-- Embeds create_relation: readiness guard, empty-endpoint guard, relation
data defaulting, then the library call with ValueError caught into an Error
string.  The weight argument is passed through unvalidated. -/
def create_relation (s : LRState) (source_entity target_entity : String)
    (description : Option String := none) (keywords : Option String := none)
    (weight : Rat := 1) (source_id : String := "manual") :
    Except String (String × LRState) :=
  if ready s = false then Except.error notReadyText
  else Except.ok (
    if source_entity = "" ∨ target_entity = "" then
      ("Error: Both source_entity and target_entity must be non-empty strings.", s)
    else
      match acreate_relation s source_entity target_entity (description.getD "")
          (keywords.getD "") weight source_id with
      | Except.ok s1 =>
        ("Relation " ++ source_entity ++ " -> " ++ target_entity ++
          " created successfully.", s1)
      | Except.error ve => ("Error: " ++ ve, s))

def dedupKeepMaxAux : Nat → List KGRelation → List KGRelation
  | 0, _ => []
  | _ + 1, [] => []
  | n + 1, r :: rest =>
    ((rest.filter fun q => q.src == r.src && q.tgt == r.tgt).foldl
        (fun a b => if a.weight < b.weight then b else a) r) ::
      dedupKeepMaxAux n (rest.filter fun q => !(q.src == r.src && q.tgt == r.tgt))

/-- Parallel (source, target) pairs collapse to the representative of highest
weight, per the merge policy stated in the spec. -/
def dedupKeepMax (l : List KGRelation) : List KGRelation := dedupKeepMaxAux l.length l

def firstNonEmpty : List String → String
  | [] => ""
  | t :: rest => if t = "" then firstNonEmpty rest else t

/-- Modelled from the spec: LightRAG amerge_entities - fails when any source
entity is absent; otherwise every edge touching a source is redirected to the
target (parallel duplicates keep the higher weight), node attributes are
merged (concatenated text, first non-empty type, unioned provenance) with the
caller overrides taking precedence, and source nodes are removed. -/
def amerge_entities (s : LRState) (sources : List String) (target : String)
    (overrides : Option Md) : Except String LRState :=
  if (sources.all fun n => (entityNames s).contains n) = false then
    Except.error "merge source entity does not exist"
  else
    let renm := fun n => if sources.contains n then target else n
    let rels := dedupKeepMax
      (s.relations.map fun r => { r with src := renm r.src, tgt := renm r.tgt })
    let pool := s.entities.filter fun e => sources.contains e.name || e.name == target
    let ov := overrides.getD []
    let merged : KGEntity :=
      { name := target,
        description := (ov.lookup "description").getD
          (String.intercalate "<SEP>" ((pool.map KGEntity.description).filter fun d => d != "")),
        entity_type := (ov.lookup "entity_type").getD
          (firstNonEmpty (pool.map KGEntity.entity_type)),
        source_id :=
          String.intercalate "<SEP>" ((pool.map KGEntity.source_id).filter fun d => d != "") }
    Except.ok
      { s with
        entities :=
          (s.entities.filter fun e => !(sources.contains e.name) && e.name != target) ++
            [merged],
        relations := rels }

/-- Embeds merge_entities: readiness guard, input guards (non-empty source
list, non-empty target, single-source self-merge rejected before anything is
touched), then the library call with ValueError caught into an Error
string. -/
def merge_entities (s : LRState) (source_entities : List String) (target_entity : String)
    (target_data_override : Option Md := none) : Except String (String × LRState) :=
  if ready s = false then Except.error notReadyText
  else Except.ok (
    if source_entities.isEmpty then
      ("Error: source_entities must be a non-empty list of strings.", s)
    else if target_entity = "" then
      ("Error: target_entity must be a non-empty string.", s)
    else if target_entity ∈ source_entities ∧ source_entities.length = 1 then
      ("Error: Cannot merge entity " ++ target_entity ++ " into itself.", s)
    else
      match amerge_entities s source_entities target_entity target_data_override with
      | Except.ok s1 => ("Entities merged successfully into " ++ target_entity ++ ".", s1)
      | Except.error ve => ("Error: " ++ ve, s))

/-- Modelled from the spec: LightRAG ainsert derives the document id
deterministically from the content (a content hash, modelled as an injective
function of the text) when no id is passed, and enqueueing an id already
present is deduplicated rather than stored twice. -/
def contentHashId (text : String) : String := "doc-" ++ text

def ainsert (s : LRState) (text : String) (ids : Option String) : LRState :=
  let docId := ids.getD (contentHashId text)
  if docId ∈ s.docs.map Prod.fst then s
  else { s with docs := s.docs ++ [(docId, text)] }

/-- Embeds store_text: readiness guard, empty-content guard, then the enqueue
through ainsert; the confirmation message reports the explicit id or the
auto-generated marker. -/
def store_text (s : LRState) (text_content : String)
    (document_id : Option String := none) (file_path : Option String := none) :
    Except String (String × LRState) :=
  if ready s = false then Except.error notReadyText
  else Except.ok (
    if text_content = "" then
      ("Error: Invalid input. text_content must be a non-empty string.", s)
    else
      ("Text content (ID: " ++ document_id.getD "auto-generated" ++
          ") enqueued for processing in LightRAG.",
        ainsert s text_content document_id))

def validModes : List String := ["naive", "local", "global", "hybrid", "mix"]

/-- Modelled from the spec: the retrieval dispatch of LightRAG aquery.
Unknown mode strings fail with an InvalidArgument condition (a ValueError)
rather than silently defaulting; a valid mode returns a synthesized string
answer, empty when the store holds nothing to draw from. -/
def aquery (s : LRState) (query mode : String) (top_k : Nat) : Except String String :=
  if mode ∈ validModes then
    Except.ok
      (if s.docs.isEmpty && s.entities.isEmpty then ""
       else "synthesized answer for mode " ++ mode)
  else Except.error ("Unknown mode " ++ mode)

def noResultsMsg (mode : String) : String :=
  "No results or response generated for mode " ++ mode ++ "."

/-- Embeds _retrieve, the shared helper behind the five retrieval methods:
readiness check (raises), empty-query guard, then aquery with
QueryParam(mode, top_k or the configured default 5); every exception from the
call is caught into an Error string and an empty response becomes the
explicit no-results message. -/
def retrieve_dispatch (s : LRState) (query mode : String) (top_k : Option Nat := none) :
    Except String String :=
  if ready s = false then Except.error notReadyText
  else Except.ok (
    if query = "" then "Error: Invalid input. query must be a non-empty string."
    else
      match aquery s query mode (top_k.getD 5) with
      | Except.ok resp => if resp = "" then noResultsMsg mode else resp
      | Except.error e => "Error during " ++ mode ++ " retrieval: " ++ e)

def retrieve_naive (s : LRState) (query : String) (top_k : Option Nat := none) :
    Except String String := retrieve_dispatch s query "naive" top_k

def retrieve_local_kg (s : LRState) (query : String) (top_k : Option Nat := none) :
    Except String String := retrieve_dispatch s query "local" top_k

def retrieve_global_kg (s : LRState) (query : String) (top_k : Option Nat := none) :
    Except String String := retrieve_dispatch s query "global" top_k

def retrieve_hybrid (s : LRState) (query : String) (top_k : Option Nat := none) :
    Except String String := retrieve_dispatch s query "hybrid" top_k

def retrieve_mix_kg_vector (s : LRState) (query : String) (top_k : Option Nat := none) :
    Except String String := retrieve_dispatch s query "mix" top_k

end LightRAGTool

/-! Embedding of PineconeTools (pinecone_tool.py), the vector-index path of
store.  Only upsert_thought is needed by the claims; the embedding values
returned by the external OpenAI embedder are not modelled (the record keeps
the text it would embed). -/

namespace PineconeTools

structure PCRecord where
  id : String
  text : String
  metadata : Md
deriving DecidableEq

structure PCState where
  index_connected : Bool
  records : List PCRecord
  uuidCounter : Nat
deriving DecidableEq

/-- Fresh-value supply modelling uuid.uuid4(): successive draws are distinct
and carry no dependence on the content. -/
def pcUuid (n : Nat) : String := "uuid-" ++ toString n

/-- Embeds upsert_thought: after the index check, a falsy (absent or empty)
thought_id is replaced by a fresh random uuid4; metadata receives the content
under the reserved text key; the index upsert overwrites any record with the
same id or inserts a new one. -/
def upsert_thought (s : PCState) (content : String) (metadata : Md := [])
    (thought_id : Option String := none) : String × PCState :=
  if s.index_connected = false then
    ("Error: Failed to upsert thought: index not connected", s)
  else
    let given := thought_id.getD ""
    let tid := if given = "" then pcUuid s.uuidCounter else given
    let s1 := if given = "" then { s with uuidCounter := s.uuidCounter + 1 } else s
    let md := (metadata.filter fun kv => kv.1 != "text") ++ [("text", content)]
    (tid,
      { s1 with records :=
          (s1.records.filter fun r => r.id != tid) ++
            [{ id := tid, text := content, metadata := md }] })

end PineconeTools

/-! Claim theorems.  Concrete states used by the witnesses. -/

open Neo4jThoughtTools LightRAGTool PineconeTools

def n4Ready : N4State :=
  { is_initialized := true, thoughts := [], edges := [], clock := 0, uuidCounter := 0 }

def n4Down : N4State :=
  { is_initialized := false, thoughts := [], edges := [], clock := 0, uuidCounter := 0 }

def lrReady0 : LRState :=
  { instanceOk := true, is_initialized := true, docs := [], entities := [], relations := [] }

def lrDown : LRState :=
  { instanceOk := true, is_initialized := false, docs := [], entities := [], relations := [] }

def pc0 : PCState := { index_connected := true, records := [], uuidCounter := 0 }

/-- Helper: a successful add_thought with an explicit fresh id appends exactly
one node and bumps the clock. -/
theorem add_thought_fresh (s : N4State) (c x : String) (m : Md)
    (hinit : s.is_initialized = true) (hx : x ≠ "") (hmem : x ∉ thoughtIds s) :
    add_thought s c x m =
      (x, { s with
        thoughts := s.thoughts ++
          [{ id := x, content := c, timestamp := s.clock,
             metadata_json := jsonDumps m }],
        clock := s.clock + 1 }) := by
  simp [add_thought, hinit, hx, hmem]

/-- Helper: add_thought on an already-present explicit id hits the unique
constraint, returns the Error string and leaves the state unchanged. -/
theorem add_thought_dup (s : N4State) (c x : String) (m : Md)
    (hinit : s.is_initialized = true) (hx : x ≠ "") (hmem : x ∈ thoughtIds s) :
    add_thought s c x m = (addThoughtError constraintViolationText, s) := by
  simp [add_thought, hinit, hx, hmem]

/-- C1: for every entity id X, creating it a second time after a successful
first creation returns an AlreadyExists-kind error result and leaves the
first entity's stored data untouched - on the Neo4j add_thought path (the
unique constraint on Thought.id rejects the second CREATE, nothing is
written) and on the LightRAG create_entity path (the library raises
AlreadyExists, the wrapper surfaces it as an Error string, the state is
returned unchanged). -/
theorem C1_create_existing_id_fails :
    (∀ (s : N4State) (c c2 x : String) (m m2 : Md),
      s.is_initialized = true → x ≠ "" → x ∉ thoughtIds s →
      (add_thought s c x m).1 = x ∧
      (add_thought (add_thought s c x m).2 c2 x m2).1 =
        addThoughtError constraintViolationText ∧
      (add_thought (add_thought s c x m).2 c2 x m2).2 = (add_thought s c x m).2) ∧
    (∀ (s : LRState) (x : String) (d t : Option String) (sid : String),
      ready s = true → x ≠ "" → x ∉ entityNames s →
      ∃ s1, create_entity s x d t sid =
          Except.ok ("Entity " ++ x ++ " created successfully.", s1) ∧
        create_entity s1 x d t sid =
          Except.ok ("Error: " ++ ("Entity " ++ x ++ " already exists"), s1)) := by
  constructor
  · intro s c c2 x m m2 hinit hx hmem
    have h1 := add_thought_fresh s c x m hinit hx hmem
    have hmem2 : x ∈ thoughtIds (add_thought s c x m).2 := by
      rw [h1]; simp [thoughtIds]
    have hinit2 : (add_thought s c x m).2.is_initialized = true := by
      rw [h1]; exact hinit
    have h2 := add_thought_dup (add_thought s c x m).2 c2 x m2 hinit2 hx hmem2
    exact ⟨by rw [h1], by rw [h2], by rw [h2]⟩
  · intro s x d t sid hready hx hmem
    refine ⟨{ s with entities := s.entities ++
        [{ name := x, description := d.getD "",
           entity_type := orElseStr t "UNKNOWN", source_id := sid }] }, ?_, ?_⟩
    · simp [create_entity, hready, hx, acreate_entity, hmem]
    · have hready2 : ready { s with entities := s.entities ++
          [{ name := x, description := d.getD "",
             entity_type := orElseStr t "UNKNOWN", source_id := sid }] } = true := hready
      have hmem2 : x ∈ entityNames { s with entities := s.entities ++
          [{ name := x, description := d.getD "",
             entity_type := orElseStr t "UNKNOWN", source_id := sid }] } := by
        simp [entityNames]
      simp [create_entity, hready2, hx, acreate_entity, hmem2]

theorem C1_witness :
    ((add_thought n4Ready "hello" "X" []).1 = "X" ∧
      (add_thought (add_thought n4Ready "hello" "X" []).2 "again" "X" []).1 =
        addThoughtError constraintViolationText ∧
      (add_thought (add_thought n4Ready "hello" "X" []).2 "again" "X" []).2 =
        (add_thought n4Ready "hello" "X" []).2) ∧
    (∃ s1, create_entity lrReady0 "X" none none "manual" =
        Except.ok ("Entity " ++ "X" ++ " created successfully.", s1) ∧
      create_entity s1 "X" none none "manual" =
        Except.ok ("Error: " ++ ("Entity " ++ "X" ++ " already exists"), s1)) :=
  ⟨C1_create_existing_id_fails.1 n4Ready "hello" "again" "X" [] [] rfl
      (by decide) (by decide),
    C1_create_existing_id_fails.2 lrReady0 "X" none none "manual" rfl
      (by decide) (by decide)⟩

/-- C2: creating a relation when either endpoint is absent returns a
NotFound-kind error and writes no edge (the Neo4j MATCH pair finds no row and
the method reports the not-found Error with the state unchanged; the LightRAG
library raises the missing-endpoint error which the wrapper surfaces with the
state unchanged); once both endpoints exist the same call succeeds. -/
theorem C2_relation_requires_endpoints :
    (∀ (s : N4State) (a b typ : String) (w : Rat) (p : Md),
      s.is_initialized = true →
      (¬ (a ∈ thoughtIds s ∧ b ∈ thoughtIds s) →
        connect_thoughts s a b typ w p = (connectNotFound, s)) ∧
      (a ∈ thoughtIds s → b ∈ thoughtIds s →
        (connect_thoughts s a b typ w p).1 = connectSuccess typ w)) ∧
    (∀ (s : LRState) (a b : String) (d k : Option String) (w : Rat) (sid : String),
      ready s = true → a ≠ "" → b ≠ "" →
      (a ∉ entityNames s →
        create_relation s a b d k w sid =
          Except.ok ("Error: " ++ ("Entity " ++ a ++ " does not exist"), s)) ∧
      (a ∈ entityNames s → b ∉ entityNames s →
        create_relation s a b d k w sid =
          Except.ok ("Error: " ++ ("Entity " ++ b ++ " does not exist"), s)) ∧
      (a ∈ entityNames s → b ∈ entityNames s →
        ∃ s1, create_relation s a b d k w sid =
          Except.ok ("Relation " ++ a ++ " -> " ++ b ++ " created successfully.", s1))) := by
  constructor
  · intro s a b typ w p hinit
    constructor
    · intro hmiss
      simp [connect_thoughts, hinit, hmiss]
    · intro ha hb
      simp [connect_thoughts, hinit, ha, hb]
  · intro s a b d k w sid hready ha hb
    refine ⟨?_, ?_, ?_⟩
    · intro hmiss
      simp [create_relation, hready, ha, hb, acreate_relation, hmiss]
    · intro hmema hmiss
      simp [create_relation, hready, ha, hb, acreate_relation, hmema, hmiss]
    · intro hmema hmemb
      refine ⟨{ s with relations :=
          (s.relations.filter fun q => !(q.src == a && q.tgt == b)) ++
            [{ src := a, tgt := b, description := d.getD "", keywords := k.getD "",
               weight := w, source_id := sid }] }, ?_⟩
      simp [create_relation, hready, ha, hb, acreate_relation, hmema, hmemb]

theorem C2_witness :
    (connect_thoughts n4Ready "A" "B" "RELATED_TO" (1 / 2) [] =
      (connectNotFound, n4Ready)) ∧
    (create_relation lrReady0 "A" "B" none none 1 "manual" =
      Except.ok ("Error: " ++ ("Entity " ++ "A" ++ " does not exist"), lrReady0)) :=
  ⟨(C2_relation_requires_endpoints.1 n4Ready "A" "B" "RELATED_TO" (1 / 2) [] rfl).1
      (by decide),
    ((C2_relation_requires_endpoints.2 lrReady0 "A" "B" none none 1 "manual" rfl
        (by decide) (by decide)).1 (by decide))⟩

/-- C3: merging a lone source into itself (source_entities equals the
singleton list of the target) is rejected with an InvalidArgument-kind error
result before the underlying merge is invoked, and the state is returned
unchanged - no node or edge is created, modified or deleted. -/
theorem C3_self_merge_single_source_rejected :
    ∀ (s : LRState) (t : String) (ov : Option Md),
      ready s = true → t ≠ "" →
      merge_entities s [t] t ov =
        Except.ok ("Error: Cannot merge entity " ++ t ++ " into itself.", s) := by
  intro s t ov hready ht
  simp [merge_entities, hready, ht]

theorem C3_witness :
    merge_entities lrReady0 ["A"] "A" none =
      Except.ok ("Error: Cannot merge entity " ++ "A" ++ " into itself.", lrReady0) :=
  C3_self_merge_single_source_rejected lrReady0 "A" none rfl (by decide)

/-- C4: retrieval through the shared dispatch with a mode name outside the
five valid ones comes back as an InvalidArgument-kind error result (the
modelled aquery raises the unknown-mode ValueError, caught into the Error
string) rather than silently defaulting to some mode; and each of the five
valid modes, on a well-formed non-empty query against an initialized empty
store, returns the explicit no-results indicator without raising. -/
theorem C4_retrieval_mode_validity :
    (∀ (s : LRState) (q mode : String) (k : Option Nat),
      ready s = true → q ≠ "" → mode ∉ validModes →
      retrieve_dispatch s q mode k =
        Except.ok ("Error during " ++ mode ++ " retrieval: " ++
          ("Unknown mode " ++ mode))) ∧
    (∀ (s : LRState) (q mode : String) (k : Option Nat),
      ready s = true → q ≠ "" → mode ∈ validModes →
      s.docs = [] → s.entities = [] →
      retrieve_dispatch s q mode k = Except.ok (noResultsMsg mode)) := by
  constructor
  · intro s q mode k hready hq hmode
    simp [retrieve_dispatch, hready, hq, aquery, hmode]
  · intro s q mode k hready hq hmode hd he
    simp [retrieve_dispatch, hready, hq, aquery, hmode, hd, he, noResultsMsg]

theorem C4_witness :
    retrieve_dispatch lrReady0 "what do I know" "bogus" none =
      Except.ok ("Error during " ++ "bogus" ++ " retrieval: " ++
        ("Unknown mode " ++ "bogus")) ∧
    retrieve_dispatch lrReady0 "what do I know" "naive" none =
      Except.ok (noResultsMsg "naive") ∧
    retrieve_dispatch lrReady0 "what do I know" "mix" none =
      Except.ok (noResultsMsg "mix") :=
  ⟨C4_retrieval_mode_validity.1 lrReady0 "what do I know" "bogus" none rfl
      (by decide) (by decide),
    C4_retrieval_mode_validity.2 lrReady0 "what do I know" "naive" none rfl
      (by decide) (by decide) rfl rfl,
    C4_retrieval_mode_validity.2 lrReady0 "what do I know" "mix" none rfl
      (by decide) (by decide) rfl rfl⟩

/-- C5 counterexample: the claim fails on the PineconeTools.upsert_thought
path, one of its two cited implementations.  upsert_thought with no explicit
id draws a fresh random uuid4 each call instead of deriving the id from the
content: storing the same text twice returns two different ids and the index
ends up with two vector records, not one. -/
theorem C5_counterexample :
    (upsert_thought pc0 "The sky is blue").1 ≠
      (upsert_thought (upsert_thought pc0 "The sky is blue").2 "The sky is blue").1 ∧
    (upsert_thought (upsert_thought pc0 "The sky is blue").2
        "The sky is blue").2.records.length = 2 := by
  decide

/-- C5 amended: on the LightRAG store_text path the derived id is a
deterministic function of the content (the content hash) and the second store
of identical content is deduplicated rather than recorded twice: with no
explicit id, the first store appends exactly the record keyed by the content
hash and the second store returns the same state.  PineconeTools.
upsert_thought instead generates a fresh uuid per call when no id is given,
yielding distinct ids and two records (see the counterexample). -/
theorem C5_store_text_content_hash_idempotent :
    ∀ (s : LRState) (text : String) (fp : Option String),
      ready s = true → text ≠ "" →
      contentHashId text ∉ s.docs.map Prod.fst →
      store_text s text none fp =
        Except.ok ("Text content (ID: " ++ "auto-generated" ++
            ") enqueued for processing in LightRAG.",
          { s with docs := s.docs ++ [(contentHashId text, text)] }) ∧
      store_text { s with docs := s.docs ++ [(contentHashId text, text)] } text none fp =
        Except.ok ("Text content (ID: " ++ "auto-generated" ++
            ") enqueued for processing in LightRAG.",
          { s with docs := s.docs ++ [(contentHashId text, text)] }) := by
  intro s text fp hready htext hfresh
  constructor
  · simp [store_text, hready, htext, ainsert, hfresh]
  · have hmem : contentHashId text ∈
        ({ s with docs := s.docs ++ [(contentHashId text, text)] } : LRState).docs.map
          Prod.fst := by simp
    have hready2 :
        ready { s with docs := s.docs ++ [(contentHashId text, text)] } = true := hready
    simp [store_text, hready2, htext, ainsert, hmem]

theorem C5_witness :
    store_text lrReady0 "The sky is blue" none none =
      Except.ok ("Text content (ID: " ++ "auto-generated" ++
          ") enqueued for processing in LightRAG.",
        { lrReady0 with docs := lrReady0.docs ++
            [(contentHashId "The sky is blue", "The sky is blue")] }) ∧
    store_text { lrReady0 with docs := lrReady0.docs ++
        [(contentHashId "The sky is blue", "The sky is blue")] }
        "The sky is blue" none none =
      Except.ok ("Text content (ID: " ++ "auto-generated" ++
          ") enqueued for processing in LightRAG.",
        { lrReady0 with docs := lrReady0.docs ++
            [(contentHashId "The sky is blue", "The sky is blue")] }) :=
  C5_store_text_content_hash_idempotent lrReady0 "The sky is blue" none rfl
    (by decide) (by decide)

/-- C6: every data operation invoked while the connection is Uninitialized or
Closed fails with a NotReady-kind condition and performs no store access (the
Neo4j methods catch the _ensure_initialized ValueError into an Error string
and return the state unchanged; the LightRAG methods let the
_ensure_rag_ready RuntimeError propagate before anything is touched, and the
finalized state fails the same way); re-running initialization when already
initialized reports success and changes nothing on either toolkit. -/
theorem C6_not_ready_ops_and_idempotent_init :
    (∀ (s : N4State) (c x : String) (m : Md), s.is_initialized = false →
      add_thought s c x m = (addThoughtError notInitializedText, s)) ∧
    (∀ (s : N4State) (a b typ : String) (w : Rat) (p : Md), s.is_initialized = false →
      connect_thoughts s a b typ w p = (connectError notInitializedText, s)) ∧
    (∀ (s : N4State) (x : String), s.is_initialized = false →
      get_thought s x = Except.error (getThoughtError notInitializedText)) ∧
    (∀ (s : N4State) (q : String) (l : Nat), s.is_initialized = false →
      search_thoughts s q l = Except.error (searchError notInitializedText)) ∧
    (∀ s : N4State, s.is_initialized = true →
      initialize_connection s = ("Neo4j connection initialized successfully", s)) ∧
    (∀ s : LRState, ready s = false →
      (∀ (t : String) (d ty : Option String) (sid : String),
        create_entity s t d ty sid = Except.error notReadyText) ∧
      (∀ (txt : String) (did fp : Option String),
        store_text s txt did fp = Except.error notReadyText) ∧
      (∀ (q mode : String) (k : Option Nat),
        retrieve_dispatch s q mode k = Except.error notReadyText) ∧
      (∀ (srcs : List String) (t : String) (ov : Option Md),
        merge_entities s srcs t ov = Except.error notReadyText)) ∧
    (∀ s : LRState, s.is_initialized = true →
      initializeTool s = ("LightRAGTool is already initialized.", s)) ∧
    (∀ s : LRState, ready s = true →
      (finalize s).1 = "Finalization successful." ∧
      ready (finalize s).2 = false ∧
      (∀ (txt : String) (did fp : Option String),
        store_text (finalize s).2 txt did fp = Except.error notReadyText)) := by
  refine ⟨?_, ?_, ?_, ?_, ?_, ?_, ?_, ?_⟩
  · intro s c x m h
    simp [add_thought, h]
  · intro s a b typ w p h
    simp [connect_thoughts, h]
  · intro s x h
    simp [get_thought, h]
  · intro s q l h
    simp [search_thoughts, h]
  · intro s h
    cases s with
    | mk i th e c u =>
      simp only at h
      subst h
      rfl
  · intro s h
    exact ⟨fun t d ty sid => by simp [create_entity, h],
      fun txt did fp => by simp [store_text, h],
      fun q mode k => by simp [retrieve_dispatch, h],
      fun srcs t ov => by simp [merge_entities, h]⟩
  · intro s h
    simp [initializeTool, h]
  · intro s h
    have hio : s.instanceOk = true := by
      have := h
      simp [ready, Bool.and_eq_true] at this
      exact this.1
    have hinit : s.is_initialized = true := by
      have := h
      simp [ready, Bool.and_eq_true] at this
      exact this.2
    have hfin : finalize s =
        ("Finalization successful.", { s with is_initialized := false }) := by
      simp [finalize, hinit, hio]
    have hready2 : ready (finalize s).2 = false := by
      rw [hfin]
      simp [ready]
    exact ⟨by rw [hfin], hready2,
      fun txt did fp => by simp [store_text, hready2]⟩

theorem C6_witness :
    add_thought n4Down "c" "X" [] = (addThoughtError notInitializedText, n4Down) ∧
    get_thought n4Down "X" = Except.error (getThoughtError notInitializedText) ∧
    initialize_connection n4Ready = ("Neo4j connection initialized successfully", n4Ready) ∧
    store_text lrDown "t" none none = Except.error notReadyText ∧
    initializeTool lrReady0 = ("LightRAGTool is already initialized.", lrReady0) ∧
    (finalize lrReady0).1 = "Finalization successful." ∧
    store_text (finalize lrReady0).2 "t" none none = Except.error notReadyText :=
  ⟨C6_not_ready_ops_and_idempotent_init.1 n4Down "c" "X" [] rfl,
    C6_not_ready_ops_and_idempotent_init.2.2.1 n4Down "X" rfl,
    C6_not_ready_ops_and_idempotent_init.2.2.2.2.1 n4Ready rfl,
    (C6_not_ready_ops_and_idempotent_init.2.2.2.2.2.1 lrDown rfl).2.1 "t" none none,
    C6_not_ready_ops_and_idempotent_init.2.2.2.2.2.2.1 lrReady0 rfl,
    (C6_not_ready_ops_and_idempotent_init.2.2.2.2.2.2.2 lrReady0 rfl).1,
    (C6_not_ready_ops_and_idempotent_init.2.2.2.2.2.2.2 lrReady0 rfl).2.2 "t" none none⟩

def c7state : N4State :=
  (add_thought (add_thought n4Ready "alpha apple" "t1" []).2 "beta apple" "t2" []).2

/-- C7 counterexample: the search_thoughts query has no ORDER BY clause, so
the results are not ordered most-recent-first by creation timestamp: with two
matching thoughts stored at timestamps 0 and 1, search returns the older one
first, refuting the ordering conjunct of the claim. -/
theorem C7_counterexample :
    ∃ l, search_thoughts c7state "apple" 10 = Except.ok l ∧
      ¬ List.Pairwise (fun a b => b.timestamp ≤ a.timestamp) l := by
  refine ⟨_, rfl, ?_⟩
  decide

/-- C7 amended: search_thoughts returns only thoughts whose content contains
the query substring, and at most limit of them; the rows come back in the
store scan order because the query carries no ORDER BY - most-recent-first
ordering is not guaranteed (see the counterexample). -/
theorem C7_search_filters_and_limits :
    ∀ (s : N4State) (q : String) (l : Nat), s.is_initialized = true →
      ∃ res, search_thoughts s q l = Except.ok res ∧
        res.length ≤ l ∧
        ∀ r ∈ res, strContains r.content q = true := by
  intro s q l hinit
  refine ⟨((s.thoughts.filter fun t => strContains t.content q).take l).map parseRecord,
    by simp [search_thoughts, hinit], ?_, ?_⟩
  · simp only [List.length_map, List.length_take]
    exact Nat.min_le_left _ _
  · intro r hr
    rcases List.mem_map.mp hr with ⟨t, ht, rfl⟩
    have ht2 : t ∈ s.thoughts.filter fun t => strContains t.content q :=
      (List.take_sublist _ _).subset ht
    have hp := (List.mem_filter.mp ht2).2
    have hc : (parseRecord t).content = t.content := by
      cases h : jsonLoads t.metadata_json <;> simp [parseRecord, h]
    rw [hc]
    exact hp

theorem C7_witness :
    ∃ res, search_thoughts c7state "apple" 10 = Except.ok res ∧
      res.length ≤ 10 ∧
      ∀ r ∈ res, strContains r.content "apple" = true :=
  C7_search_filters_and_limits c7state "apple" 10 rfl

def c8state : N4State :=
  (add_thought (add_thought n4Ready "thought a" "A" []).2 "thought b" "B" []).2

/-- C8 counterexample: connect_thoughts applies neither rejection nor
clamping to an out-of-range weight: the call with weight 2 succeeds and the
stored edge carries weight 2, outside [0, 1], refuting the claimed invariant
that every stored edge weight lies in [0, 1]. -/
theorem C8_counterexample :
    (connect_thoughts c8state "A" "B" "RELATED_TO" 2 []).1 =
      connectSuccess "RELATED_TO" 2 ∧
    ∃ e ∈ (connect_thoughts c8state "A" "B" "RELATED_TO" 2 []).2.edges,
      e.weight = 2 ∧ ¬ (e.weight ≤ 1) := by
  refine ⟨rfl,
    ⟨{ source_id := "A", target_id := "B", relationship_type := "RELATED_TO",
       weight := 2, properties := [] }, ?_, rfl, by norm_num⟩⟩
  decide

/-- C8 amended: connect_thoughts and create_relation follow one consistent
policy for the weight, namely no validation and no clamping: whenever the
endpoints exist the call succeeds and the stored edge carries exactly the
caller's weight, whatever its value - weights outside [0, 1] are stored
as-is (see the counterexample). -/
theorem C8_weight_stored_unvalidated :
    (∀ (s : N4State) (a b typ : String) (w : Rat) (p : Md),
      s.is_initialized = true → a ∈ thoughtIds s → b ∈ thoughtIds s →
      (connect_thoughts s a b typ w p).1 = connectSuccess typ w ∧
      ({ source_id := a, target_id := b, relationship_type := typ, weight := w,
         properties := p.filter fun kv => kv.1 != "weight" } : Edge) ∈
        (connect_thoughts s a b typ w p).2.edges) ∧
    (∀ (s : LRState) (a b : String) (d k : Option String) (w : Rat) (sid : String),
      ready s = true → a ≠ "" → b ≠ "" → a ∈ entityNames s → b ∈ entityNames s →
      ∃ s1, create_relation s a b d k w sid =
          Except.ok ("Relation " ++ a ++ " -> " ++ b ++ " created successfully.", s1) ∧
        ({ src := a, tgt := b, description := d.getD "", keywords := k.getD "",
           weight := w, source_id := sid } : KGRelation) ∈ s1.relations) := by
  constructor
  · intro s a b typ w p hinit ha hb
    constructor
    · simp [connect_thoughts, hinit, ha, hb]
    · by_cases he :
        ({ source_id := a, target_id := b, relationship_type := typ, weight := w,
           properties := p.filter fun kv => kv.1 != "weight" } : Edge) ∈ s.edges
      · simp [connect_thoughts, hinit, ha, hb, he]
      · simp [connect_thoughts, hinit, ha, hb, he]
  · intro s a b d k w sid hready ha hb hmema hmemb
    refine ⟨{ s with relations :=
        (s.relations.filter fun q => !(q.src == a && q.tgt == b)) ++
          [{ src := a, tgt := b, description := d.getD "", keywords := k.getD "",
             weight := w, source_id := sid }] }, ?_, ?_⟩
    · simp [create_relation, hready, ha, hb, acreate_relation, hmema, hmemb]
    · simp

def lrAB : LRState :=
  { lrReady0 with entities :=
      [{ name := "A", description := "", entity_type := "UNKNOWN", source_id := "manual" },
       { name := "B", description := "", entity_type := "UNKNOWN", source_id := "manual" }] }

theorem C8_witness :
    ((connect_thoughts c8state "A" "B" "T" (7 / 2) []).1 = connectSuccess "T" (7 / 2) ∧
      ({ source_id := "A", target_id := "B", relationship_type := "T", weight := 7 / 2,
         properties := List.filter (fun kv => kv.1 != "weight") [] } : Edge) ∈
        (connect_thoughts c8state "A" "B" "T" (7 / 2) []).2.edges) ∧
    (∃ s1, create_relation lrAB "A" "B" none none (7 / 2) "manual" =
        Except.ok ("Relation " ++ "A" ++ " -> " ++ "B" ++ " created successfully.", s1) ∧
      ({ src := "A", tgt := "B", description := Option.getD none "",
         keywords := Option.getD none "", weight := 7 / 2,
         source_id := "manual" } : KGRelation) ∈ s1.relations) :=
  ⟨C8_weight_stored_unvalidated.1 c8state "A" "B" "T" (7 / 2) [] rfl
      (by decide) (by decide),
    C8_weight_stored_unvalidated.2 lrAB "A" "B" none none (7 / 2) "manual" rfl
      (by decide) (by decide) (by decide) (by decide)⟩

/-- Helper: find? skips a prefix on which the predicate is false. -/
theorem find?_append_fresh {α : Type} (l1 l2 : List α) (p : α → Bool)
    (h : ∀ u ∈ l1, p u = false) : List.find? p (l1 ++ l2) = List.find? p l2 := by
  induction l1 with
  | nil => rfl
  | cons a l ih =>
    have ha : p a = false := h a (by simp)
    simp only [List.cons_append, List.find?, ha]
    exact ih fun u hu => h u (by simp [hu])

/-- C9: metadata written by add_thought is serialized to opaque JSON text and
deserialized on read - get_thought returns the very map that was stored, with
the raw serialized text removed from the record; and when the stored text is
not valid JSON, reads fall back to the empty map instead of raising. -/
theorem C9_metadata_roundtrip :
    (∀ (s : N4State) (c x : String) (m : Md),
      s.is_initialized = true → x ≠ "" → x ∉ thoughtIds s →
      get_thought (add_thought s c x m).2 x =
        Except.ok { id := x, content := c, timestamp := s.clock,
                    metadata := m, metadata_json := none }) ∧
    (∀ (s : N4State) (x : String) (t : Thought),
      s.is_initialized = true →
      s.thoughts.find? (fun u => u.id == x) = some t →
      jsonLoads t.metadata_json = none →
      get_thought s x =
        Except.ok { id := t.id, content := t.content, timestamp := t.timestamp,
                    metadata := [], metadata_json := some t.metadata_json }) := by
  constructor
  · intro s c x m hinit hx hmem
    have h1 := add_thought_fresh s c x m hinit hx hmem
    have hinit2 : (add_thought s c x m).2.is_initialized = true := by
      rw [h1]; exact hinit
    have hth : (add_thought s c x m).2.thoughts =
        s.thoughts ++ [{ id := x, content := c, timestamp := s.clock,
                         metadata_json := jsonDumps m }] := by rw [h1]
    have hfresh : ∀ u ∈ s.thoughts, (u.id == x) = false := by
      intro u hu
      have hne : u.id ≠ x := fun hEq => hmem (List.mem_map.mpr ⟨u, hu, hEq⟩)
      simpa using hne
    have hfind : List.find? (fun u => u.id == x) (add_thought s c x m).2.thoughts =
        some { id := x, content := c, timestamp := s.clock,
               metadata_json := jsonDumps m } := by
      rw [hth, find?_append_fresh _ _ _ hfresh]
      simp [List.find?]
    simp [get_thought, hinit2, hfind, parseRecord, jsonLoads_jsonDumps]
  · intro s x t hinit hfind hbad
    simp [get_thought, hinit, hfind, parseRecord, hbad]

def badMetadataState : N4State :=
  { is_initialized := true,
    thoughts := [{ id := "B", content := "txt", timestamp := 0,
                   metadata_json := "not json" }],
    edges := [], clock := 1, uuidCounter := 0 }

theorem C9_witness :
    get_thought (add_thought n4Ready "c" "X" [("k", "v")]).2 "X" =
      Except.ok { id := "X", content := "c", timestamp := 0,
                  metadata := [("k", "v")], metadata_json := none } ∧
    get_thought badMetadataState "B" =
      Except.ok { id := "B", content := "txt", timestamp := 0,
                  metadata := [], metadata_json := some "not json" } :=
  ⟨C9_metadata_roundtrip.1 n4Ready "c" "X" [("k", "v")] rfl (by decide) (by decide),
    C9_metadata_roundtrip.2 badMetadataState "B"
      { id := "B", content := "txt", timestamp := 0, metadata_json := "not json" }
      rfl (by decide) (by decide)⟩

/-- C10: a call to add_thought that omits thought_id uses the declared
default, the literal string "Thought" - the uuid branch guarded by the
falsiness check never runs (the fresh-uuid counter is untouched) - so the
first defaulted call creates a node with id "Thought" and a second defaulted
call collides with the uniqueness constraint, returns an error, and changes
nothing. -/
theorem C10_default_thought_id_collides :
    ∀ (s : N4State) (c c2 : String),
      s.is_initialized = true → "Thought" ∉ thoughtIds s →
      (add_thought s c).1 = "Thought" ∧
      (add_thought s c).2.uuidCounter = s.uuidCounter ∧
      "Thought" ∈ thoughtIds (add_thought s c).2 ∧
      (add_thought (add_thought s c).2 c2).1 = addThoughtError constraintViolationText ∧
      (add_thought (add_thought s c).2 c2).2 = (add_thought s c).2 := by
  intro s c c2 hinit hmem
  have h1 := add_thought_fresh s c "Thought" [] hinit (by decide) hmem
  have hmem2 : "Thought" ∈ thoughtIds (add_thought s c "Thought" []).2 := by
    rw [h1]; simp [thoughtIds]
  have hinit2 : (add_thought s c "Thought" []).2.is_initialized = true := by
    rw [h1]; exact hinit
  have h2 := add_thought_dup (add_thought s c "Thought" []).2 c2 "Thought" []
    hinit2 (by decide) hmem2
  exact ⟨by rw [h1], by rw [h1], hmem2, by rw [h2], by rw [h2]⟩

theorem C10_witness :
    (add_thought n4Ready "some idea").1 = "Thought" ∧
    (add_thought n4Ready "some idea").2.uuidCounter = n4Ready.uuidCounter ∧
    "Thought" ∈ thoughtIds (add_thought n4Ready "some idea").2 ∧
    (add_thought (add_thought n4Ready "some idea").2 "another").1 =
      addThoughtError constraintViolationText ∧
    (add_thought (add_thought n4Ready "some idea").2 "another").2 =
      (add_thought n4Ready "some idea").2 :=
  C10_default_thought_id_collides n4Ready "some idea" "another" rfl (by decide)

end ThoughtKB
